/-
Verification of the Abjad-Advertiser backend tracking core.

This file shallowly embeds the data model and the operations of the
ad-tracking / revenue-attribution backend (pricing engine, campaign budget
ledger, publisher earnings aggregator, tracking-session manager and the
event-ingestion pipeline) as executable Lean definitions, and proves — or
refutes on concrete inputs — the stated properties of each component.

Conventions used throughout the embedding:
* money amounts are rationals (`ℚ`); the Python `f"{x:.2f}"` re-formatting
  that happens when an amount is written back to the database is modelled
  by `round2`;
* Python `datetime` instants used only for subtraction are integers
  (seconds); the `datetime` values used as earnings month keys are a
  `PyDateTime` record carrying the calendar date and the time of day,
  because `replace(day=1)` keeps the time-of-day fields;
* Python dicts are association lists with first-match lookup and
  overwrite-on-insert;
* SQLAlchemy sessions are passed around as explicit lists of rows; a
  `commit` on the plain async session makes the mutation visible in the
  returned state immediately, which is how the source behaves;
* fallible Python code returns `Except`; a raised exception that a caller
  catches is an `Except.error` value inspected by the caller's handler.
-/
import Mathlib

/-! ## Generic helpers -/

deriving instance DecidableEq for Except

/-- Rounding to two decimal places: the arithmetic effect of the Python
`f"{x:.2f}"` formatting used whenever a money amount is written back as the
string `"X.XX_CUR"`. -/
def round2 (x : ℚ) : ℚ := (round (100 * x) : ℚ) / 100

/-- Lookup in a Python dict modelled as an association list (`d[k]` /
`d.get(k)`): first binding of the key, if any. -/
def dictGet {α : Type} (m : List (String × α)) (k : String) : Option α :=
  (m.find? (fun p => p.1 == k)).map (fun p => p.2)

/-- Insertion in a Python dict modelled as an association list
(`d[k] = v`): overwrite the existing binding, else append a new one. -/
def dictInsert {α : Type} (m : List (String × α)) (k : String) (v : α) :
    List (String × α) :=
  if (m.find? (fun p => p.1 == k)).isSome then
    m.map (fun p => if p.1 == k then (k, v) else p)
  else
    m ++ [(k, v)]

/-- Update the first element of a list satisfying `p` by `f`, leaving every
other element unchanged.  This is how mutating the single ORM object
returned by a `SELECT ... LIMIT 1`-style query acts on the table. -/
def updateFirst {α : Type} (l : List α) (p : α → Bool) (f : α → α) : List α :=
  match l with
  | [] => []
  | x :: xs => if p x then f x :: xs else x :: updateFirst xs p f

/-- Python truthiness test `not x` for an optional string: `None` and the
empty string are falsy. -/
def pyFalsy : Option String → Bool
  | none => true
  | some s => s == ""

/-- Python `a or b` on optional strings: the first operand when truthy,
otherwise the second. -/
def pyOr (a b : Option String) : Option String :=
  if pyFalsy a then b else a

/-- SQLAlchemy `scalar_one_or_none()`: `none` on an empty result, the row on
a singleton result, and a raised `MultipleResultsFound` otherwise. -/
def scalarOneOrNone {α : Type} (l : List α) : Except String (Option α) :=
  match l with
  | [] => .ok none
  | [x] => .ok (some x)
  | _ => .error "MultipleResultsFound"

/-- FastAPI `HTTPException`, as raised throughout the tracker endpoints. -/
structure HTTPException where
  status_code : Nat
  detail : String
deriving Repr, DecidableEq

/-! ## Pricing engine (`app/utils/pricing.py`)

The `PricingManager` loads a JSON configuration once and is read-only
afterwards; the embedding passes the parsed configuration explicitly to
each method.  The concrete rate table (`pricing_rates.json`) is data, not
code, and every theorem below is proved for an arbitrary configuration. -/

/-- `RegionRates` pydantic model: per-region rate card. -/
structure RegionRates where
  description : String
  countries : List String
  rates : List (String × ℚ)
  currency : String
deriving Repr, DecidableEq

/-- `PricingConfig` pydantic model: the complete pricing configuration. -/
structure PricingConfig where
  regions : List (String × RegionRates)
  default_currency : String
  minimum_payout : ℚ
  payment_schedule : String
  rate_multipliers : List (String × ℚ)
  version : String
deriving Repr, DecidableEq

/-- The `country_region_map` built in `PricingManager.__init__`: for each
region, each of its countries is mapped to the region name (later regions
overwrite earlier ones, as Python dict insertion does). -/
def country_region_map (cfg : PricingConfig) : List (String × String) :=
  cfg.regions.foldl
    (fun m rd => rd.2.countries.foldl (fun m c => dictInsert m c rd.1) m) []

/-- `PricingManager.get_region_for_country`: map lookup on the upper-cased
country code, defaulting to the region `"other"`. -/
def get_region_for_country (cfg : PricingConfig) (country_code : String) :
    String :=
  (dictGet (country_region_map cfg) country_code.toUpper).getD "other"

/-- Exceptions that can escape `get_base_rate`: a `KeyError` when the
resolved region is absent from the configuration, or the explicit
`PricingError` for an interaction type the region defines no rate for. -/
inductive PricingExc
  | keyError (key : String)
  | pricingError (msg : String)
deriving Repr, DecidableEq

/-- `PricingManager.get_base_rate`: resolve the region for the country and
read the region's rate for the interaction type. -/
def get_base_rate (cfg : PricingConfig) (country_code : String)
    (interaction_type : String) : Except PricingExc ℚ :=
  let region := get_region_for_country cfg country_code
  match dictGet cfg.regions region with
  | none => .error (.keyError region)
  | some region_data =>
    match dictGet region_data.rates interaction_type with
    | none =>
        .error (.pricingError ("Invalid interaction type: " ++ interaction_type))
    | some r => .ok r

/-- `PricingManager.get_device_multiplier`: lookup on the lower-cased device
type, defaulting to `1.0` when the device type is unknown. -/
def get_device_multiplier (cfg : PricingConfig) (device_type : String) : ℚ :=
  (dictGet cfg.rate_multipliers device_type.toLower).getD 1

/-- The dictionary returned by `PricingManager.calculate_revenue`. -/
structure RevenueDetails where
  base_rate : ℚ
  device_multiplier : ℚ
  final_rate : ℚ
  currency : String
deriving Repr, DecidableEq

/-- `PricingManager.calculate_revenue`: compute base rate, device
multiplier, final rate and region currency; any exception in the body is
caught and re-raised as an `HTTPException` with status 400 (the original
message interpolated into the detail string is elided here). -/
def calculate_revenue (cfg : PricingConfig) (country_code : String)
    (interaction_type : String) (device_type : String) :
    Except HTTPException RevenueDetails :=
  match get_base_rate cfg country_code interaction_type with
  | .error _ => .error ⟨400, "Error calculating revenue"⟩
  | .ok base_rate =>
    let device_multiplier := get_device_multiplier cfg device_type
    let final_rate := base_rate * device_multiplier
    let region := get_region_for_country cfg country_code
    match dictGet cfg.regions region with
    | none => .error ⟨400, "Error calculating revenue"⟩
    | some rd =>
        .ok ⟨base_rate, device_multiplier, final_rate, rd.currency⟩

/-! ## Campaign budget ledger (`app/models/campaigns.py`) -/

/-- `ModelError` from `app/models/exceptions.py`: a reason plus an HTTP
status code. -/
structure ModelError where
  reason : String
  status : Nat
deriving Repr, DecidableEq

/-- `CampaignStatus` enum. -/
inductive CampaignStatus
  | DRAFT
  | ACTIVE
  | PAUSED
  | COMPLETED
deriving Repr, DecidableEq

/-- `Campaign` row, restricted to the fields the tracking pipeline touches.
The source stores `campaign_budget` and `campaign_budget_used` as strings
`"AMOUNT_CURRENCY"`; the embedding keeps the numeric part as a rational and
the currency suffix separately. -/
structure Campaign where
  id : String
  campaign_status : CampaignStatus
  campaign_budget : ℚ
  campaign_budget_used : ℚ
  budget_currency : String
  advertisement_id : String
deriving Repr, DecidableEq

/-- `Campaign.increase_budget_used`: reject a non-positive amount, reject a
debit that would exceed the total budget, otherwise write back
`used + amount` re-formatted to two decimal places (the `f"{...:.2f}"` in
the source).  Both rejections raise `ModelError` before any field is
assigned and before any commit, so the stored row is untouched on failure;
the interpolated remainder of the second reason string is elided. -/
def Campaign.increase_budget_used (c : Campaign) (amount : ℚ) :
    Except ModelError Campaign :=
  if amount ≤ 0 then
    .error ⟨"Amount must be positive", 400⟩
  else
    let current_budget := c.campaign_budget
    let current_used := c.campaign_budget_used
    if current_used + amount > current_budget then
      .error ⟨"Budget would be exceeded. Available: ", 400⟩
    else
      .ok { c with campaign_budget_used := round2 (current_used + amount) }

example : round2 (1/250) = 0 := by rw [round2, round_eq]; norm_num

example :
    Campaign.increase_budget_used
      ⟨"c1", .ACTIVE, 10, 999/100, "USD", "ad1"⟩ (5/100) =
    .error ⟨"Budget would be exceeded. Available: ", 400⟩ := by
  rw [Campaign.increase_budget_used]
  norm_num

/-! ## Publisher earnings aggregator (`app/models/publisher_earnings.py`) -/

/-- `WithdrawalStatus` enum. -/
inductive WithdrawalStatus
  | PENDING
  | WITHDRAWAL_REQUESTED
  | WITHDRAWAL_APPROVED
  | WITHDRAWAL_COMPLETED
  | WITHDRAWAL_REJECTED
deriving Repr, DecidableEq

/-- Python `datetime` value as used for the month bucketing
(`month.replace(day=1)`) and stored in the `month` DateTime column.  The
time-of-day fields are part of the value: `replace(day=1)` changes only
the day, so two same-month datetimes with different times of day remain
different keys. -/
structure PyDateTime where
  year : Int
  month : Nat
  day : Nat
  hour : Nat
  minute : Nat
  second : Nat
  microsecond : Nat
deriving Repr, DecidableEq

/-- Python `month.replace(day=1)`: set the day to 1, keeping every other
field — the hour, minute, second and microsecond included. -/
def PyDateTime.replaceDay1 (d : PyDateTime) : PyDateTime :=
  { d with day := 1 }

/-- `PublisherEarnings` row.  Timestamps (`created_at`,
`withdrawal_requested_at`, `withdrawal_processed_at`) are instants in
seconds; `month` is the stored DateTime bucket key. -/
structure PublisherEarnings where
  id : String
  publisher_id : String
  month : PyDateTime
  total_views : Nat
  total_clicks : Nat
  total_impressions : Nat
  gross_revenue : ℚ
  publisher_share : ℚ
  platform_share : ℚ
  withdrawal_status : WithdrawalStatus
  withdrawal_requested_at : Option Int
  withdrawal_processed_at : Option Int
  withdrawal_notes : Option String
  created_at : Int
deriving Repr, DecidableEq

/-- Row filter used by `PublisherEarnings.get_monthly_earnings`: same
publisher and same month-truncated-to-the-1st. -/
def PublisherEarnings.matchesBucket (publisher_id : String) (month : PyDateTime)
    (e : PublisherEarnings) : Bool :=
  e.publisher_id == publisher_id && e.month == month.replaceDay1

/-- `PublisherEarnings.get_monthly_earnings`: first row matching the
publisher and the month truncated to the 1st (`scalars().first()`). -/
def PublisherEarnings.get_monthly_earnings (db : List PublisherEarnings)
    (publisher_id : String) (month : PyDateTime) : Option PublisherEarnings :=
  db.find? (PublisherEarnings.matchesBucket publisher_id month)

/-- The in-place mutation performed by
`PublisherEarnings.create_or_update_earnings` on the bucket row: add the
event's counts and revenue shares to the running totals (the `or 0` null
guards of the source are identities here because the embedded fields are
total). -/
def PublisherEarnings.addCounts (views clicks impressions : Nat)
    (gross_revenue publisher_share platform_share : ℚ)
    (e : PublisherEarnings) : PublisherEarnings :=
  { e with
    total_views := e.total_views + views
    total_clicks := e.total_clicks + clicks
    total_impressions := e.total_impressions + impressions
    gross_revenue := e.gross_revenue + gross_revenue
    publisher_share := e.publisher_share + publisher_share
    platform_share := e.platform_share + platform_share }

/-- `PublisherEarnings.create_or_update_earnings`: look the bucket up by
(publisher, month truncated to the 1st); when absent, add a fresh row with
zeroed totals (its `id` is a generated cuid and `created_at` defaults to
now — both passed explicitly here), then increment the found-or-created
row's totals and commit. -/
def PublisherEarnings.create_or_update_earnings (db : List PublisherEarnings)
    (publisher_id : String) (month : PyDateTime)
    (views clicks impressions : Nat)
    (gross_revenue publisher_share platform_share : ℚ)
    (newId : String) (now : Int) : List PublisherEarnings :=
  let inc := PublisherEarnings.addCounts views clicks impressions
    gross_revenue publisher_share platform_share
  match PublisherEarnings.get_monthly_earnings db publisher_id month with
  | none =>
      let e0 : PublisherEarnings :=
        { id := newId
          publisher_id := publisher_id
          month := month.replaceDay1
          total_views := 0
          total_clicks := 0
          total_impressions := 0
          gross_revenue := 0
          publisher_share := 0
          platform_share := 0
          withdrawal_status := .PENDING
          withdrawal_requested_at := none
          withdrawal_processed_at := none
          withdrawal_notes := none
          created_at := now }
      db ++ [inc e0]
  | some _ =>
      updateFirst db (PublisherEarnings.matchesBucket publisher_id month) inc

/-- `PublisherEarnings.request_withdrawal`: guarded transition of the
month's bucket to `WITHDRAWAL_REQUESTED`.  Returns the `(success, message)`
pair together with the resulting table (unchanged on every failure); the
interpolated parts of the failure messages are elided.  `minimum_payout`
comes from the pricing configuration. -/
def PublisherEarnings.request_withdrawal (db : List PublisherEarnings)
    (publisher_id : String) (month : PyDateTime) (now : Int)
    (minimum_payout : ℚ) : (Bool × String) × List PublisherEarnings :=
  match PublisherEarnings.get_monthly_earnings db publisher_id month with
  | none => ((false, "No earnings found for the specified month"), db)
  | some earnings =>
    if earnings.withdrawal_status ≠ .PENDING then
      ((false, "Withdrawal already in status"), db)
    else
      let min_days : Int := 7
      let days_passed : Int := Int.fdiv (now - earnings.created_at) 86400
      if days_passed < min_days then
        ((false, "Must wait more days before requesting withdrawal"), db)
      else if earnings.publisher_share < minimum_payout then
        ((false, "Minimum payout amount is"), db)
      else
        ((true, "Withdrawal request submitted successfully"),
         updateFirst db (PublisherEarnings.matchesBucket publisher_id month)
           (fun e => { e with
             withdrawal_status := .WITHDRAWAL_REQUESTED
             withdrawal_requested_at := some now }))

/-- `PublisherEarnings.process_withdrawal`: approve or reject a requested
withdrawal by earnings id; approval goes directly to
`WITHDRAWAL_COMPLETED`, rejection to `WITHDRAWAL_REJECTED`; `processed_at`
and the notes are stamped either way. -/
def PublisherEarnings.process_withdrawal (db : List PublisherEarnings)
    (earnings_id : String) (approve : Bool) (notes : Option String)
    (now : Int) : (Bool × String) × List PublisherEarnings :=
  match db.find? (fun e => e.id == earnings_id) with
  | none => ((false, "Earnings record not found"), db)
  | some earnings =>
    if earnings.withdrawal_status ≠ .WITHDRAWAL_REQUESTED then
      ((false, "Cannot process withdrawal in status"), db)
    else
      ((true, if approve then "Withdrawal request approved successfully"
              else "Withdrawal request rejected successfully"),
       updateFirst db (fun e => e.id == earnings_id)
         (fun e => { e with
           withdrawal_status :=
             if approve then .WITHDRAWAL_COMPLETED else .WITHDRAWAL_REJECTED
           withdrawal_processed_at := some now
           withdrawal_notes := notes }))

/-- One call of the withdrawal state machine: either a publisher's
`request_withdrawal` or an admin's `process_withdrawal`, with its inputs. -/
inductive WithdrawalOp
  | request (publisher_id : String) (month : PyDateTime) (now : Int)
      (minimum_payout : ℚ)
  | process (earnings_id : String) (approve : Bool) (notes : Option String)
      (now : Int)

/-- Table resulting from one withdrawal operation. -/
def applyWithdrawalOp (db : List PublisherEarnings) :
    WithdrawalOp → List PublisherEarnings
  | .request publisher_id month now minimum_payout =>
      (PublisherEarnings.request_withdrawal db publisher_id month now
        minimum_payout).2
  | .process earnings_id approve notes now =>
      (PublisherEarnings.process_withdrawal db earnings_id approve notes
        now).2

/-- Table resulting from a sequence of withdrawal operations. -/
def applyWithdrawalOps (db : List PublisherEarnings)
    (ops : List WithdrawalOp) : List PublisherEarnings :=
  ops.foldl applyWithdrawalOp db

/-! ## Tracking sessions (`app/models/campaign_tracking_session.py` and the
`/track/init` endpoint of `app/api/v1/tracker/__init__.py`)

The JWT is modelled by its claim set; `create_tracking_jwt` signs exactly
these claims and `decode_tracking_jwt` verifies the signature and the
expiry, so at this level a token is its claims record and signature
verification always succeeds for tokens the server itself issued. -/

/-- Claims of the tracking JWT created by `create_tracking_jwt`. -/
structure TrackingJwt where
  ip : String
  ua : String
  res : Option String
  lang : Option String
  pub_id : String
  exp : Int
deriving Repr, DecidableEq

/-- `decode_tracking_jwt`: PyJWT rejects a token whose `exp` claim is not in
the future (`ExpiredSignatureError`, surfaced as a 401). -/
def decode_tracking_jwt (token : TrackingJwt) (now : Int) :
    Except HTTPException TrackingJwt :=
  if token.exp ≤ now then
    .error ⟨401, "Tracking session has expired"⟩
  else
    .ok token

/-- `CampaignTrackingSession` row. -/
structure CampaignTrackingSession where
  id : String
  jwt_token : TrackingJwt
  viewer_ip : String
  viewer_user_agent : String
  viewer_screen_resolution : Option String
  viewer_language : Option String
  created_at : Int
  expires_at : Int
  is_blacklisted : Bool
  blacklisted_at : Option Int
  publisher_id : String
deriving Repr, DecidableEq

/-- `CampaignTrackingSession.create_session`: build the row (expiry
defaulting to one hour from now when none is passed, `is_blacklisted`
defaulting to false), add and commit it. -/
def CampaignTrackingSession.create_session (db : List CampaignTrackingSession)
    (jwt_token : TrackingJwt) (ip : String) (user_agent : String)
    (publisher_id : String) (screen_resolution : Option String)
    (language : Option String) (expires_at : Option Int)
    (now : Int) (newId : String) :
    CampaignTrackingSession × List CampaignTrackingSession :=
  let tracking_session : CampaignTrackingSession :=
    { id := newId
      jwt_token := jwt_token
      viewer_ip := ip
      viewer_user_agent := user_agent
      viewer_screen_resolution := screen_resolution
      viewer_language := language
      created_at := now
      expires_at := expires_at.getD (now + 3600)
      is_blacklisted := false
      blacklisted_at := none
      publisher_id := publisher_id }
  (tracking_session, db ++ [tracking_session])

/-- Row filter of `CampaignTrackingSession.get_valid_session`: token, IP,
user agent and publisher must match exactly, the row must not be expired
(strictly in the future) and must not be blacklisted. -/
def CampaignTrackingSession.validFilter (jwt_token : TrackingJwt)
    (ip : String) (user_agent : String) (publisher_id : String) (now : Int)
    (s : CampaignTrackingSession) : Bool :=
  s.jwt_token == jwt_token && s.viewer_ip == ip &&
    s.viewer_user_agent == user_agent && decide (now < s.expires_at) &&
    s.is_blacklisted == false && s.publisher_id == publisher_id

/-- `CampaignTrackingSession.get_valid_session`: `scalar_one_or_none` over
the rows passing `validFilter` (the debug logging on the miss path has no
observable effect). -/
def CampaignTrackingSession.get_valid_session
    (db : List CampaignTrackingSession) (jwt_token : TrackingJwt)
    (ip : String) (user_agent : String) (publisher_id : String)
    (now : Int) : Except String (Option CampaignTrackingSession) :=
  scalarOneOrNone
    (db.filter
      (CampaignTrackingSession.validFilter jwt_token ip user_agent
        publisher_id now))

/-- Value of the Python expression `cls.is_blacklisted is True` appearing in
the WHERE clause of `CampaignTrackingSession.cleanup_blacklist`: `is` tests
object identity, and the SQLAlchemy `Column` object is never the singleton
`True`, so the expression evaluates to the constant `False` at query build
time (contrast `is_(True)`, the SQL-level test used elsewhere in the same
model).  SQLAlchemy coerces the boolean into the SQL literal `false`. -/
def cleanupBlacklistIdentityTest : Bool := false

/-- `CampaignTrackingSession.cleanup_blacklist`: UPDATE of the rows matched
by the conjunction of `cls.is_blacklisted is True` (see
`cleanupBlacklistIdentityTest`) and `blacklisted_at <= one_hour_ago`,
setting `is_blacklisted` to false and clearing `blacklisted_at`. -/
def CampaignTrackingSession.cleanup_blacklist
    (db : List CampaignTrackingSession) (now : Int) :
    List CampaignTrackingSession :=
  let one_hour_ago := now - 3600
  db.map (fun s =>
    if cleanupBlacklistIdentityTest &&
        (match s.blacklisted_at with
         | some t => decide (t ≤ one_hour_ago)
         | none => false) then
      { s with is_blacklisted := false, blacklisted_at := none }
    else s)

/-- What the docstring of `cleanup_blacklist` says the sweep does
("Remove blacklist for IPs that have been blacklisted for more than an
hour"), i.e. the same UPDATE with the SQL-level test
`is_blacklisted.is_(True)` in place of the Python identity test. -/
def cleanup_blacklist_documented (db : List CampaignTrackingSession)
    (now : Int) : List CampaignTrackingSession :=
  let one_hour_ago := now - 3600
  db.map (fun s =>
    if s.is_blacklisted &&
        (match s.blacklisted_at with
         | some t => decide (t ≤ one_hour_ago)
         | none => false) then
      { s with is_blacklisted := false, blacklisted_at := none }
    else s)

/-- `init_tracking_session` (`POST /track/init/{publisher_id}`): validate
the fingerprint inputs, reject bot and email-client user agents, create the
JWT with a one-hour expiry and mirror it in a session row whose database
expiry has a one-minute buffer.  The user-agent classifier is the external
`user_agents` parser, passed as the predicates `is_bot` / `is_email_client`;
the cookie side effect carries the returned token and is not part of the
stored state. -/
def init_tracking_session (db : List CampaignTrackingSession)
    (publisher_id : String) (client_ip : Option String)
    (viewer_user_agent : Option String)
    (viewer_screen_resolution : Option String)
    (viewer_language : Option String)
    (header_user_agent : Option String)
    (is_bot : String → Bool) (is_email_client : String → Bool)
    (now : Int) (newId : String) :
    Except HTTPException (CampaignTrackingSession × List CampaignTrackingSession) :=
  if pyFalsy client_ip then .error ⟨400, "Missing IP address"⟩ else
  let user_agent := pyOr viewer_user_agent header_user_agent
  if pyFalsy user_agent then .error ⟨400, "Missing user agent"⟩ else
  if publisher_id == "" then .error ⟨400, "Missing publisher ID"⟩ else
  let ip := client_ip.getD ""
  let ua := user_agent.getD ""
  if is_bot ua || is_email_client ua then
    .error ⟨403, "Bot traffic not allowed"⟩
  else
    let jwt_expiry := now + 3600
    let db_expiry := jwt_expiry + 60
    let jwt_token : TrackingJwt :=
      { ip := ip
        ua := ua
        res := viewer_screen_resolution
        lang := viewer_language
        pub_id := publisher_id
        exp := jwt_expiry }
    .ok (CampaignTrackingSession.create_session db jwt_token ip ua
      publisher_id viewer_screen_resolution viewer_language
      (some db_expiry) now newId)

/-- `get_tracking_session` dependency: read the session cookie, decode the
JWT, then cross-check the database row; absence at any step is a 401.  A
`MultipleResultsFound` escaping `get_valid_session` is an unhandled server
error (500). -/
def get_tracking_session (db : List CampaignTrackingSession)
    (cookie : Option TrackingJwt) (request_ip : String)
    (request_ua : String) (publisher_id : String) (now : Int) :
    Except HTTPException CampaignTrackingSession :=
  match cookie with
  | none => .error ⟨401, "Missing or invalid tracking session"⟩
  | some jwt_token =>
    match decode_tracking_jwt jwt_token now with
    | .error e => .error e
    | .ok _ =>
      match CampaignTrackingSession.get_valid_session db jwt_token
          request_ip request_ua publisher_id now with
      | .error _ => .error ⟨500, "Internal Server Error"⟩
      | .ok none => .error ⟨401, "Invalid or expired tracking session"⟩
      | .ok (some tracking_session) => .ok tracking_session

/-! ## Tracking events and the ingestion pipeline
(`app/models/tracking_events.py`, `app/api/v1/tracker/__init__.py`)

External collaborators are passed as explicit inputs: the geolocation
result for the session's pinned IP (`IPInfoGrabber.get_ip_info`), the
user-agent parse results (`ua_parser` / `get_device_type`), the pricing
configuration and the `PLATFORM_SHARE` / `PUBLISHER_SHARE` settings.  The
embedding covers the pipeline from the duplicate check onwards for a
request whose session dependency and external parses succeeded, which is
the region the verified claims range over. -/

/-- `IPInformation` from `app/utils/ip_info_grabber.py`. -/
structure IPInformation where
  ip : String
  country : String
  latitude : ℚ
  longitude : ℚ
  timezone : String
  is_eu : Bool
  city : String
deriving Repr, DecidableEq

/-- `TrackingEvent` row. -/
structure TrackingEvent where
  id : String
  ad_id : String
  campaign_id : String
  event_type : String
  earnings : ℚ
  platform_earnings : ℚ
  publisher_earnings : ℚ
  viewer_ip : String
  viewer_country : String
  viewer_device : String
  viewer_device_type : String
  viewer_os : String
  viewer_browser : String
  viewer_language : Option String
  viewer_user_agent : String
  viewer_session_id : String
  viewer_screen_resolution : Option String
  viewer_timezone : String
  last_view_timestamp : Int
  publisher_id : String
deriving Repr, DecidableEq

/-- `TrackingEvent.check_duplicate_event`: true iff some persisted event for
the same (campaign, viewer IP, event type) has
`last_view_timestamp >= time_window_checking_limit`. -/
def TrackingEvent.check_duplicate_event (events : List TrackingEvent)
    (campaign_id : String) (viewer_ip : String) (event_type : String)
    (time_window_checking_limit : Int) : Bool :=
  events.any (fun e =>
    e.campaign_id == campaign_id && e.viewer_ip == viewer_ip &&
      e.event_type == event_type &&
      decide (time_window_checking_limit ≤ e.last_view_timestamp))

/-- The dictionary returned by `TrackingEvent.calculate_earnings`. -/
structure EarningsDetails where
  earnings : ℚ
  platform_earnings : ℚ
  publisher_earnings : ℚ
  currency : String
deriving Repr, DecidableEq

/-- `TrackingEvent.calculate_earnings`: price the event via
`PricingManager.calculate_revenue` and split the final rate into the
configured platform and publisher shares (`settings.PLATFORM_SHARE` and
`settings.PUBLISHER_SHARE`, passed explicitly). -/
def TrackingEvent.calculate_earnings (cfg : PricingConfig)
    (platform_share publisher_share : ℚ) (event_type : String)
    (country_code : String) (device_type : String) :
    Except HTTPException EarningsDetails :=
  match calculate_revenue cfg country_code event_type device_type with
  | .error e => .error e
  | .ok d =>
      .ok { earnings := d.final_rate
            platform_earnings := d.final_rate * platform_share
            publisher_earnings := d.final_rate * publisher_share
            currency := d.currency }

/-- `TrackingEvent.create_event`: compute the earnings breakdown, build the
event row (its `id` is a generated cuid and `last_view_timestamp` is now,
both passed explicitly) and commit it to the events table. -/
def TrackingEvent.create_event (events : List TrackingEvent)
    (cfg : PricingConfig) (platform_share publisher_share : ℚ)
    (ad_id : String) (campaign_id : String) (event_type : String)
    (ip_info : IPInformation) (device : String) (device_type : String)
    (os : String) (browser : String) (language : Option String)
    (tracking_session_id : String) (user_agent : String)
    (publisher_id : String) (screen_resolution : Option String)
    (now : Int) (newId : String) :
    Except HTTPException (TrackingEvent × List TrackingEvent) :=
  match TrackingEvent.calculate_earnings cfg platform_share publisher_share
      event_type ip_info.country device_type with
  | .error e => .error e
  | .ok earnings_details =>
    let event : TrackingEvent :=
      { id := newId
        ad_id := ad_id
        campaign_id := campaign_id
        event_type := event_type
        earnings := earnings_details.earnings
        platform_earnings := earnings_details.platform_earnings
        publisher_earnings := earnings_details.publisher_earnings
        viewer_ip := ip_info.ip
        viewer_country := ip_info.country
        viewer_device := device
        viewer_device_type := device_type
        viewer_os := os
        viewer_browser := browser
        viewer_language := language
        viewer_user_agent := user_agent
        viewer_session_id := tracking_session_id
        viewer_screen_resolution := screen_resolution
        viewer_timezone := ip_info.timezone
        last_view_timestamp := now
        publisher_id := publisher_id }
    .ok (event, events ++ [event])

/-- `LogLevel` from `app/models/logs.py`. -/
inductive LogLevel
  | DEBUG
  | INFO
  | WARNING
  | ERROR
  | CRITICAL
deriving Repr, DecidableEq

/-- System log entry (`SystemLog.create_log` via the `Logger` wrapper),
restricted to the fields the pipeline writes that the claims observe. -/
structure SystemLog where
  level : LogLevel
  message : String
deriving Repr, DecidableEq

/-- Exceptions that the `track_campaign` handler can catch: FastAPI
`HTTPException`s raised inside the `try` block, the `ValueError` for an
inactive or missing campaign, the `ModelError` from the budget debit, and
the pydantic `ValidationError` from `TrackingEventResponse()`. -/
inductive Raised
  | http (e : HTTPException)
  | valueError (msg : String)
  | modelError (e : ModelError)
  | validationError (msg : String)
deriving Repr, DecidableEq

/-- Visible database state during a tracking request.  Every write of the
pipeline goes through the plain async session, whose `commit` calls are
real, so each sub-step's mutation is immediately visible; only the
blacklist cleanup runs on the deferred-commit `TxAsyncSession`. -/
structure TrackState where
  events : List TrackingEvent
  campaigns : List Campaign
  publishers : List String
  earnings : List PublisherEarnings
  sessions : List CampaignTrackingSession
  logs : List SystemLog
deriving Repr, DecidableEq

/-- Request context of one `track_campaign` call: path parameters, the
event type string of the body, the tracking session resolved by the
dependency, the external geolocation and user-agent parse results, the
current instant (and its calendar date), and the generated cuids. -/
structure TrackRequestCtx where
  campaign_id : String
  publisher_id : String
  event_type : String
  tracking_session : CampaignTrackingSession
  ip_info : IPInformation
  device : String
  device_type : String
  os : String
  browser : String
  now : Int
  today : PyDateTime
  newEventId : String
  newEarningsId : String

/-- Body of the `try` block of `track_campaign`: the ingestion pipeline
from the duplicate check to the response construction.  Returns the raised
exception (if any) together with the database state visible at that point —
partial, already-committed writes included.  The response construction
`TrackingEventResponse()` raises a pydantic `ValidationError` because the
response schema's fields are required and none is passed, so the blacklist
cleanup and the success return after it are unreachable. -/
def track_campaign_inner (cfg : PricingConfig)
    (platform_share publisher_share : ℚ) (ctx : TrackRequestCtx)
    (st : TrackState) : Except Raised Unit × TrackState :=
  let client_ip := ctx.tracking_session.viewer_ip
  let time_window_checking_limit := ctx.now - 60 * 60
  let is_duplicate := TrackingEvent.check_duplicate_event st.events
    ctx.campaign_id client_ip ctx.event_type time_window_checking_limit
  if is_duplicate then
    (.error (.http ⟨429,
      "Duplicate event detected. Please wait 60 minutes between events."⟩),
     st)
  else
    let ip_info := ctx.ip_info
    if (st.publishers.contains ctx.publisher_id) = false then
      (.error (.http ⟨404, "Publisher not found"⟩), st)
    else
      match st.campaigns.find? (fun c => c.id == ctx.campaign_id) with
      | none => (.error (.valueError "Invalid campaign or publisher"), st)
      | some campaign =>
        if campaign.campaign_status ≠ .ACTIVE then
          (.error (.valueError "Invalid campaign or publisher"), st)
        else
          match TrackingEvent.create_event st.events cfg platform_share
              publisher_share campaign.advertisement_id ctx.campaign_id
              ctx.event_type ip_info ctx.device ctx.device_type ctx.os
              ctx.browser ctx.tracking_session.viewer_language
              ctx.tracking_session.id
              ctx.tracking_session.viewer_user_agent ctx.publisher_id
              ctx.tracking_session.viewer_screen_resolution ctx.now
              ctx.newEventId with
          | .error e => (.error (.http e), st)
          | .ok (tracking_event, events') =>
            let st1 : TrackState := { st with events := events' }
            match campaign.increase_budget_used tracking_event.earnings with
            | .error e => (.error (.modelError e), st1)
            | .ok campaign' =>
              let st2 : TrackState := { st1 with
                campaigns := updateFirst st1.campaigns
                  (fun c => c.id == ctx.campaign_id) (fun _ => campaign') }
              let views := if ctx.event_type == "view" then 1 else 0
              let clicks := if ctx.event_type == "click" then 1 else 0
              let impressions :=
                if ctx.event_type == "impression" then 1 else 0
              let st3 : TrackState := { st2 with
                earnings := PublisherEarnings.create_or_update_earnings
                  st2.earnings ctx.publisher_id ctx.today views clicks
                  impressions tracking_event.earnings
                  tracking_event.publisher_earnings
                  tracking_event.platform_earnings ctx.newEarningsId
                  ctx.now }
              let st4 : TrackState := { st3 with
                logs := st3.logs ++ [⟨.INFO, "Processed tracking event"⟩] }
              (.error (.validationError
                "TrackingEventResponse fields are required"), st4)

/-- `track_campaign` (`POST /track/{campaign_id}/{publisher_id}`): run the
pipeline; any exception is caught, an ERROR audit entry is written, and a
generic ingestion failure with status 500 is returned in its place.  The
pair holds the HTTP outcome and the final visible database state. -/
def track_campaign (cfg : PricingConfig)
    (platform_share publisher_share : ℚ) (ctx : TrackRequestCtx)
    (st : TrackState) : Except HTTPException Unit × TrackState :=
  match track_campaign_inner cfg platform_share publisher_share ctx st with
  | (.ok r, st') => (.ok r, st')
  | (.error _, st') =>
      ((.error ⟨500, "Error processing tracking event"⟩),
       { st' with logs := st'.logs ++ [⟨.ERROR, "Error tracking campaign"⟩] })

/-! ## Shared lemmas -/

/-- Two-decimal rounding is monotone. -/
theorem round2_le_round2 {x y : ℚ} (h : x ≤ y) : round2 x ≤ round2 y := by
  rw [round2, round2, round_eq, round_eq]
  have hf : ⌊(100 : ℚ) * x + 1/2⌋ ≤ ⌊(100 : ℚ) * y + 1/2⌋ :=
    Int.floor_mono (by linarith)
  have hq : ((⌊(100 : ℚ) * x + 1/2⌋ : ℤ) : ℚ) ≤ ((⌊(100 : ℚ) * y + 1/2⌋ : ℤ) : ℚ) := by
    exact_mod_cast hf
  linarith

/-- Two-decimal rounding fixes every multiple of one hundredth. -/
theorem round2_hundredth (k : ℤ) : round2 ((k : ℚ) / 100) = (k : ℚ) / 100 := by
  rw [round2]
  have h : (100 : ℚ) * ((k : ℚ) / 100) = (k : ℚ) := by field_simp
  rw [h, round_intCast]

/-- Shape of a successful `increase_budget_used`: the guards both failed and
the written value is the rounded sum. -/
theorem increase_budget_used_ok_iff (c : Campaign) (amount : ℚ)
    (c' : Campaign) :
    c.increase_budget_used amount = .ok c' ↔
      (0 < amount ∧ c.campaign_budget_used + amount ≤ c.campaign_budget ∧
        c' = { c with
          campaign_budget_used :=
            round2 (c.campaign_budget_used + amount) }) := by
  rw [Campaign.increase_budget_used]
  rcases le_or_lt amount 0 with h1 | h1
  · rw [if_pos h1]
    simp only [reduceCtorEq, false_iff]
    rintro ⟨h, -⟩
    exact absurd h1 (not_le.mpr h)
  · rw [if_neg (not_le.mpr h1)]
    rcases lt_or_le c.campaign_budget (c.campaign_budget_used + amount) with
      h2 | h2
    · rw [if_pos h2]
      simp only [reduceCtorEq, false_iff]
      rintro ⟨-, h, -⟩
      exact absurd h2 (not_lt.mpr h)
    · rw [if_neg (not_lt.mpr h2)]
      constructor
      · intro h
        exact ⟨h1, h2, ((Except.ok.injEq _ _).mp h).symm⟩
      · rintro ⟨-, -, rfl⟩
        rfl

/-! ## C3: the budget debit operation -/

/-- C3, counterexample: the debit does not increment `budget_used` by
exactly `amount` — the written value is re-formatted to two decimal places.
A successful debit of 0.004 USD on a campaign with `budget_used = 0.00`
leaves `budget_used` at `0.00`, not `0.004`; and for a (non-2-decimal)
budget total of 0.006 USD, a successful debit of 0.006 rounds the written
`budget_used` up to `0.01 > 0.006`, so the preservation of
`budget_used ≤ budget_total` also fails as literally stated. -/
theorem increase_budget_used_not_exact_cex :
    (Campaign.increase_budget_used ⟨"c1", .ACTIVE, 10, 0, "USD", "ad1"⟩
        (1/250) = .ok ⟨"c1", .ACTIVE, 10, 0, "USD", "ad1"⟩) ∧
    (0 : ℚ) ≠ 0 + 1/250 ∧
    (Campaign.increase_budget_used ⟨"c2", .ACTIVE, 3/500, 0, "USD", "ad2"⟩
        (3/500) = .ok ⟨"c2", .ACTIVE, 3/500, 1/100, "USD", "ad2"⟩) ∧
    ¬ ((1 : ℚ)/100 ≤ 3/500) := by
  refine ⟨?_, by norm_num, ?_, by norm_num⟩
  · rw [increase_budget_used_ok_iff]
    refine ⟨by norm_num, by norm_num, ?_⟩
    have h : round2 ((0 : ℚ) + 1/250) = 0 := by
      rw [round2, round_eq]
      norm_num
    rw [h]
  · rw [increase_budget_used_ok_iff]
    refine ⟨by norm_num, by norm_num, ?_⟩
    have h : round2 ((0 : ℚ) + 3/500) = 1/100 := by
      rw [round2, round_eq]
      norm_num
    rw [h]

/-- C3 (amended): the debit fails when `amount ≤ 0`; fails with the
budget-exceeded error when `budget_used + amount > budget_total` (and the
amount guard passed); otherwise it sets `budget_used` to
`budget_used + amount` rounded to two decimal places, leaves
`budget_total` unchanged, and — because campaign budget totals are written
with two decimal places — preserves `budget_used ≤ budget_total`.  Failures
raise before any assignment or commit, so the stored row is unchanged. -/
theorem increase_budget_used_correct (c : Campaign) (amount : ℚ)
    (htot : ∃ k : ℤ, c.campaign_budget = (k : ℚ) / 100) :
    (amount ≤ 0 →
      c.increase_budget_used amount =
        .error ⟨"Amount must be positive", 400⟩) ∧
    (0 < amount → c.campaign_budget < c.campaign_budget_used + amount →
      c.increase_budget_used amount =
        .error ⟨"Budget would be exceeded. Available: ", 400⟩) ∧
    (∀ c', c.increase_budget_used amount = .ok c' →
      c'.campaign_budget_used = round2 (c.campaign_budget_used + amount) ∧
      c'.campaign_budget = c.campaign_budget ∧
      c'.campaign_budget_used ≤ c'.campaign_budget) := by
  refine ⟨?_, ?_, ?_⟩
  · intro h
    rw [Campaign.increase_budget_used, if_pos h]
  · intro h0 hover
    rw [Campaign.increase_budget_used, if_neg (not_le.mpr h0), if_pos hover]
  · intro c' h
    rw [increase_budget_used_ok_iff] at h
    obtain ⟨hpos, hle, rfl⟩ := h
    refine ⟨rfl, rfl, ?_⟩
    obtain ⟨k, hk⟩ := htot
    calc round2 (c.campaign_budget_used + amount)
        ≤ round2 c.campaign_budget := round2_le_round2 hle
      _ = c.campaign_budget := by rw [hk, round2_hundredth]

/-- C3 witness: both failure branches at concrete inputs, with the
two-decimal budget-total hypothesis discharged. -/
theorem increase_budget_used_correct_witness :
    (Campaign.increase_budget_used ⟨"w", .ACTIVE, 10, 0, "USD", "a"⟩ (-1) =
      .error ⟨"Amount must be positive", 400⟩) ∧
    (Campaign.increase_budget_used ⟨"w", .ACTIVE, 10, 0, "USD", "a"⟩ 11 =
      .error ⟨"Budget would be exceeded. Available: ", 400⟩) :=
  ⟨(increase_budget_used_correct ⟨"w", .ACTIVE, 10, 0, "USD", "a"⟩ (-1)
      ⟨1000, by norm_num⟩).1 (by norm_num),
   (increase_budget_used_correct ⟨"w", .ACTIVE, 10, 0, "USD", "a"⟩ 11
      ⟨1000, by norm_num⟩).2.1 (by norm_num) (by norm_num)⟩

/-! ## C10: two-decimal re-formatting of the stored budget -/

/-- C10: every successful debit stores `budget_used` as an exact multiple
of 0.01 — namely `budget_used + amount` rounded to two decimal places — so
a debit whose amount is not a multiple of 0.01 written onto a 2-decimal
stored value never adds exactly `amount`; concretely, two successive
debits of 0.004 USD on a fresh 10.00 USD campaign both succeed and leave
`budget_used` at 0, different from the exact sum 0.008. -/
theorem budget_used_rounded_on_write (c : Campaign) (amount : ℚ)
    (c' : Campaign) (h : c.increase_budget_used amount = .ok c') :
    (∃ k : ℤ, c'.campaign_budget_used = (k : ℚ) / 100) ∧
    c'.campaign_budget_used = round2 (c.campaign_budget_used + amount) ∧
    ((∃ j : ℤ, c.campaign_budget_used = (j : ℚ) / 100) →
      (∀ m : ℤ, amount ≠ (m : ℚ) / 100) →
      c'.campaign_budget_used ≠ c.campaign_budget_used + amount) ∧
    (Campaign.increase_budget_used ⟨"d", .ACTIVE, 10, 0, "USD", "a"⟩
        (1/250) = .ok ⟨"d", .ACTIVE, 10, 0, "USD", "a"⟩ ∧
      (0 : ℚ) ≠ 1/250 + 1/250) := by
  rw [increase_budget_used_ok_iff] at h
  obtain ⟨hpos, hle, rfl⟩ := h
  refine ⟨⟨round (100 * (c.campaign_budget_used + amount)), rfl⟩, rfl,
    ?_, ?_, by norm_num⟩
  · rintro ⟨j, hj⟩ hm heq
    apply hm (round (100 * (c.campaign_budget_used + amount)) - j)
    have heq2 : ((round (100 * (c.campaign_budget_used + amount)) : ℤ) : ℚ) /
        100 = c.campaign_budget_used + amount := heq
    push_cast
    linarith
  · rw [increase_budget_used_ok_iff]
    refine ⟨by norm_num, by norm_num, ?_⟩
    have h : round2 ((0 : ℚ) + 1/250) = 0 := by
      rw [round2, round_eq]
      norm_num
    rw [h]

/-! ## C4: the pricing calculation -/

/-- C4: `calculate_revenue` is deterministic (it is a pure function of the
configuration and its three inputs, by construction of the embedding), and
on every success it returns the base rate of the country's region for the
interaction type, the device multiplier, `final_rate = base_rate ×
device_multiplier`, and the currency configured for the country's region;
the region falls back to `"other"` when the country is not in the table
and the multiplier falls back to `1.0` when the device type is unknown. -/
theorem calculate_revenue_correct (cfg : PricingConfig)
    (country_code interaction_type device_type : String)
    (d : RevenueDetails)
    (h : calculate_revenue cfg country_code interaction_type device_type =
      .ok d) :
    get_base_rate cfg country_code interaction_type = .ok d.base_rate ∧
    d.device_multiplier = get_device_multiplier cfg device_type ∧
    d.final_rate = d.base_rate * d.device_multiplier ∧
    (∃ rd, dictGet cfg.regions (get_region_for_country cfg country_code) =
        some rd ∧ d.currency = rd.currency) ∧
    (dictGet (country_region_map cfg) country_code.toUpper = none →
      get_region_for_country cfg country_code = "other") ∧
    (dictGet cfg.rate_multipliers device_type.toLower = none →
      d.device_multiplier = 1) := by
  rw [calculate_revenue] at h
  cases hbr : get_base_rate cfg country_code interaction_type with
  | error e =>
    rw [hbr] at h
    exact absurd h (by simp)
  | ok r =>
    simp only [hbr] at h
    cases hrg : dictGet cfg.regions (get_region_for_country cfg country_code)
      with
    | none =>
      rw [hrg] at h
      exact absurd h (by simp)
    | some rd =>
      simp only [hrg] at h
      rw [Except.ok.injEq] at h
      subst h
      refine ⟨rfl, rfl, rfl, ⟨rd, rfl, rfl⟩, ?_, ?_⟩
      · intro hnone
        rw [get_region_for_country, hnone]
        rfl
      · intro hnone
        show get_device_multiplier cfg device_type = 1
        rw [get_device_multiplier, hnone]
        rfl

/-- Concrete pricing configuration used by the C4 witness: one region
`"other"` with a view rate of 2 USD and a single (mobile) multiplier. -/
def cfgW : PricingConfig :=
  ⟨[("other", ⟨"Other regions", [], [("view", 2)], "USD"⟩)],
   "USD", 50, "monthly", [], "1.0.0"⟩

/-- Revenue details computed by `calculate_revenue` on `cfgW` for
(`"zz"`, `"view"`, `"desktop"`). -/
def dW : RevenueDetails := ⟨2, 1, 2, "USD"⟩

/-- C4 witness: the pricing correctness theorem applied to a concrete
configuration and inputs exercising both fallbacks. -/
theorem calculate_revenue_correct_witness :
    get_base_rate cfgW "zz" "view" = .ok dW.base_rate ∧
    dW.device_multiplier = get_device_multiplier cfgW "desktop" ∧
    dW.final_rate = dW.base_rate * dW.device_multiplier ∧
    (∃ rd, dictGet cfgW.regions (get_region_for_country cfgW "zz") =
        some rd ∧ dW.currency = rd.currency) ∧
    (dictGet (country_region_map cfgW) "zz".toUpper = none →
      get_region_for_country cfgW "zz" = "other") ∧
    (dictGet cfgW.rate_multipliers "desktop".toLower = none →
      dW.device_multiplier = 1) :=
  calculate_revenue_correct cfgW "zz" "view" "desktop" dW (by
    norm_num [calculate_revenue, get_base_rate, get_region_for_country,
      country_region_map, dictGet, dictInsert, get_device_multiplier,
      cfgW, dW])

/-! ## C7: the blacklist cleanup sweep -/

/-- Stale blacklisted session used to exhibit the C7 divergence: it was
blacklisted at instant 0, more than one hour before instant 7200. -/
def staleSession : CampaignTrackingSession :=
  ⟨"s1", ⟨"1.2.3.4", "ua", none, none, "pub", 3600⟩, "1.2.3.4", "ua",
   none, none, 0, 10000, true, some 0, "pub"⟩

/-- C7: contrary to the claim, `cleanup_blacklist` un-blacklists nothing —
its WHERE clause contains the Python identity test
`cls.is_blacklisted is True`, which is the constant `False` at query build
time, so the UPDATE matches no row and the call is the identity on the
table (trivially idempotent).  Concretely, a session blacklisted two hours
ago stays blacklisted, while the behaviour described by the function's own
docstring (`cleanup_blacklist_documented`) would un-blacklist it. -/
theorem cleanup_blacklist_is_noop (db : List CampaignTrackingSession)
    (now : Int) :
    CampaignTrackingSession.cleanup_blacklist db now = db ∧
    CampaignTrackingSession.cleanup_blacklist [staleSession] 7200 =
      [staleSession] ∧
    staleSession.is_blacklisted = true ∧
    cleanup_blacklist_documented [staleSession] 7200 =
      [{ staleSession with is_blacklisted := false,
                           blacklisted_at := none }] := by
  refine ⟨?_, ?_, rfl, ?_⟩
  · simp [CampaignTrackingSession.cleanup_blacklist,
      cleanupBlacklistIdentityTest]
  · simp [CampaignTrackingSession.cleanup_blacklist,
      cleanupBlacklistIdentityTest]
  · simp [cleanup_blacklist_documented, staleSession]

/-- Updating the first `p`-element of a list leaves it the first
`p`-element, provided the update preserves `p`. -/
theorem find?_updateFirst_self {α : Type} (l : List α) (p : α → Bool)
    (f : α → α) (e : α) (h : l.find? p = some e)
    (hf : ∀ x, p x = true → p (f x) = true) :
    (updateFirst l p f).find? p = some (f e) := by
  induction l with
  | nil => simp at h
  | cons x xs ih =>
    rw [updateFirst]
    by_cases hx : p x = true
    · rw [if_pos hx]
      rw [List.find?_cons_of_pos _ hx] at h
      have hxe : x = e := Option.some.inj h
      subst hxe
      rw [List.find?_cons_of_pos _ (hf x hx)]
    · rw [if_neg hx]
      rw [List.find?_cons_of_neg _ hx] at h
      rw [List.find?_cons_of_neg _ hx]
      exact ih h

/-! ## C6: the withdrawal request -/

/-- C6: `request_withdrawal` fails — leaving the table unchanged — when no
bucket exists for the month, when the bucket's status is not `pending`,
when fewer than 7 full days have elapsed since the bucket's creation, or
when `publisher_share` is below the configured minimum payout; otherwise
it succeeds, setting the bucket's status to `withdrawal_requested` and
stamping `withdrawal_requested_at` with the current instant. -/
theorem request_withdrawal_correct (db : List PublisherEarnings)
    (publisher_id : String) (month : PyDateTime) (now : Int)
    (minimum_payout : ℚ) :
    (PublisherEarnings.get_monthly_earnings db publisher_id month = none →
      PublisherEarnings.request_withdrawal db publisher_id month now
        minimum_payout =
        ((false, "No earnings found for the specified month"), db)) ∧
    (∀ e, PublisherEarnings.get_monthly_earnings db publisher_id month =
        some e →
      (e.withdrawal_status ≠ .PENDING →
        PublisherEarnings.request_withdrawal db publisher_id month now
          minimum_payout = ((false, "Withdrawal already in status"), db)) ∧
      (e.withdrawal_status = .PENDING →
        Int.fdiv (now - e.created_at) 86400 < 7 →
        PublisherEarnings.request_withdrawal db publisher_id month now
          minimum_payout =
          ((false, "Must wait more days before requesting withdrawal"),
           db)) ∧
      (e.withdrawal_status = .PENDING →
        7 ≤ Int.fdiv (now - e.created_at) 86400 →
        e.publisher_share < minimum_payout →
        PublisherEarnings.request_withdrawal db publisher_id month now
          minimum_payout = ((false, "Minimum payout amount is"), db)) ∧
      (e.withdrawal_status = .PENDING →
        7 ≤ Int.fdiv (now - e.created_at) 86400 →
        minimum_payout ≤ e.publisher_share →
        PublisherEarnings.request_withdrawal db publisher_id month now
          minimum_payout =
          ((true, "Withdrawal request submitted successfully"),
           updateFirst db
             (PublisherEarnings.matchesBucket publisher_id month)
             (fun x => { x with
               withdrawal_status := .WITHDRAWAL_REQUESTED
               withdrawal_requested_at := some now })) ∧
        PublisherEarnings.get_monthly_earnings
          (PublisherEarnings.request_withdrawal db publisher_id month now
            minimum_payout).2 publisher_id month =
          some { e with withdrawal_status := .WITHDRAWAL_REQUESTED,
                        withdrawal_requested_at := some now })) := by
  constructor
  · intro h
    rw [PublisherEarnings.request_withdrawal]
    rw [h]
  · intro e he
    refine ⟨?_, ?_, ?_, ?_⟩
    · intro hs
      rw [PublisherEarnings.request_withdrawal]
      rw [he]
      simp only [if_pos hs]
    · intro hs hd
      rw [PublisherEarnings.request_withdrawal]
      rw [he]
      simp only [hs, ne_eq, not_true_eq_false, if_false, if_pos hd]
    · intro hs hd hp
      rw [PublisherEarnings.request_withdrawal]
      rw [he]
      simp only [hs, ne_eq, not_true_eq_false, if_false,
        if_neg (not_lt.mpr hd), if_pos hp]
    · intro hs hd hp
      have hres : PublisherEarnings.request_withdrawal db publisher_id
          month now minimum_payout =
          ((true, "Withdrawal request submitted successfully"),
           updateFirst db
             (PublisherEarnings.matchesBucket publisher_id month)
             (fun x => { x with
               withdrawal_status := .WITHDRAWAL_REQUESTED
               withdrawal_requested_at := some now })) := by
        rw [PublisherEarnings.request_withdrawal]
        rw [he]
        simp only [hs, ne_eq, not_true_eq_false, if_false,
          if_neg (not_lt.mpr hd), if_neg (not_lt.mpr hp)]
      refine ⟨hres, ?_⟩
      rw [hres]
      rw [PublisherEarnings.get_monthly_earnings] at he ⊢
      exact find?_updateFirst_self db _ _ e he (fun x hx => hx)

/-- Pending earnings bucket used by the C6 and C9 witnesses: created at
instant 0 with a publisher share of 100. -/
def eW : PublisherEarnings :=
  ⟨"e1", "pub", ⟨2024, 5, 1, 0, 0, 0, 0⟩, 0, 0, 0, 0, 100, 0, .PENDING,
   none, none,
   none, 0⟩

/-- C6 witness: on a concrete pending bucket, a request after 8 full days
with a sufficient share succeeds and stamps the bucket, and a request
after only 1 full day fails with the table unchanged. -/
theorem request_withdrawal_correct_witness :
    (PublisherEarnings.request_withdrawal [eW] "pub" ⟨2024, 5, 15, 0, 0, 0, 0⟩ 700000
        50 =
      ((true, "Withdrawal request submitted successfully"),
       updateFirst [eW]
         (PublisherEarnings.matchesBucket "pub" ⟨2024, 5, 15, 0, 0, 0, 0⟩)
         (fun x => { x with
           withdrawal_status := .WITHDRAWAL_REQUESTED
           withdrawal_requested_at := some 700000 }))) ∧
    PublisherEarnings.get_monthly_earnings
      (PublisherEarnings.request_withdrawal [eW] "pub" ⟨2024, 5, 15, 0, 0, 0, 0⟩ 700000
        50).2 "pub" ⟨2024, 5, 15, 0, 0, 0, 0⟩ =
      some { eW with withdrawal_status := .WITHDRAWAL_REQUESTED,
                     withdrawal_requested_at := some 700000 } ∧
    PublisherEarnings.request_withdrawal [eW] "pub" ⟨2024, 5, 15, 0, 0, 0, 0⟩ 100000
        50 =
      ((false, "Must wait more days before requesting withdrawal"),
       [eW]) :=
  have h :=
    (request_withdrawal_correct [eW] "pub" ⟨2024, 5, 15, 0, 0, 0, 0⟩ 700000 50).2 eW rfl
  have h1 :=
    (request_withdrawal_correct [eW] "pub" ⟨2024, 5, 15, 0, 0, 0, 0⟩ 100000 50).2 eW rfl
  ⟨(h.2.2.2 rfl (by decide) (by norm_num [eW])).1,
   (h.2.2.2 rfl (by decide) (by norm_num [eW])).2,
   h1.2.1 rfl (by decide)⟩

/-- Every element of `updateFirst l p f` is an element of `l` or the image
under `f` of an element of `l`. -/
theorem mem_updateFirst {α : Type} {l : List α} {p : α → Bool} {f : α → α}
    {y : α} (hy : y ∈ updateFirst l p f) : y ∈ l ∨ ∃ x ∈ l, y = f x := by
  induction l with
  | nil => simp [updateFirst] at hy
  | cons x xs ih =>
    rw [updateFirst] at hy
    by_cases hx : p x = true
    · rw [if_pos hx] at hy
      rcases List.mem_cons.mp hy with h | h
      · exact Or.inr ⟨x, List.mem_cons_self x xs, h⟩
      · exact Or.inl (List.mem_cons_of_mem x h)
    · rw [if_neg hx] at hy
      rcases List.mem_cons.mp hy with h | h
      · exact Or.inl (h ▸ List.mem_cons_self x xs)
      · rcases ih h with h1 | ⟨z, hz, he⟩
        · exact Or.inl (List.mem_cons_of_mem x h1)
        · exact Or.inr ⟨z, List.mem_cons_of_mem x hz, he⟩

/-! ## C9: reachable withdrawal statuses -/

/-- One withdrawal operation either preserves a row's status or writes
`WITHDRAWAL_REQUESTED`, `WITHDRAWAL_COMPLETED` or `WITHDRAWAL_REJECTED`;
no operation writes `WITHDRAWAL_APPROVED`. -/
theorem status_after_withdrawal_op (db : List PublisherEarnings)
    (op : WithdrawalOp) (y : PublisherEarnings)
    (hy : y ∈ applyWithdrawalOp db op) :
    (∃ x ∈ db, y.withdrawal_status = x.withdrawal_status) ∨
    y.withdrawal_status = .WITHDRAWAL_REQUESTED ∨
    y.withdrawal_status = .WITHDRAWAL_COMPLETED ∨
    y.withdrawal_status = .WITHDRAWAL_REJECTED := by
  cases op with
  | request publisher_id month now minimum_payout =>
    simp only [applyWithdrawalOp, PublisherEarnings.request_withdrawal]
      at hy
    split at hy
    · exact Or.inl ⟨y, hy, rfl⟩
    · split at hy
      · exact Or.inl ⟨y, hy, rfl⟩
      · split at hy
        · exact Or.inl ⟨y, hy, rfl⟩
        · split at hy
          · exact Or.inl ⟨y, hy, rfl⟩
          · rcases mem_updateFirst hy with h | ⟨x, hx, he⟩
            · exact Or.inl ⟨y, h, rfl⟩
            · exact Or.inr (Or.inl (by rw [he]))
  | process earnings_id approve notes now =>
    simp only [applyWithdrawalOp, PublisherEarnings.process_withdrawal]
      at hy
    split at hy
    · exact Or.inl ⟨y, hy, rfl⟩
    · split at hy
      · exact Or.inl ⟨y, hy, rfl⟩
      · rcases mem_updateFirst hy with h | ⟨x, hx, he⟩
        · exact Or.inl ⟨y, h, rfl⟩
        · cases happ : approve with
          | true =>
            refine Or.inr (Or.inr (Or.inl ?_))
            simp [he, happ]
          | false =>
            refine Or.inr (Or.inr (Or.inr ?_))
            simp [he, happ]

/-- A table with no `WITHDRAWAL_APPROVED` row never acquires one under any
sequence of withdrawal operations. -/
theorem no_approved_invariant (ops : List WithdrawalOp)
    (db : List PublisherEarnings)
    (h : ∀ e ∈ db, e.withdrawal_status ≠ .WITHDRAWAL_APPROVED) :
    ∀ e ∈ applyWithdrawalOps db ops,
      e.withdrawal_status ≠ .WITHDRAWAL_APPROVED := by
  induction ops generalizing db with
  | nil => exact h
  | cons op ops ih =>
    intro e he
    refine ih (applyWithdrawalOp db op) ?_ e he
    intro y hy
    rcases status_after_withdrawal_op db op y hy with ⟨x, hx, hs⟩ | hs | hs
      | hs
    · rw [hs]
      exact h x hx
    · rw [hs]
      simp
    · rw [hs]
      simp
    · rw [hs]
      simp

/-- C9: starting from a table whose buckets are all `pending`, any sequence
of `request_withdrawal` / `process_withdrawal` calls only ever produces the
statuses `pending`, `withdrawal_requested`, `withdrawal_completed` and
`withdrawal_rejected`; in particular no row ever carries
`withdrawal_approved` (approval transitions directly to completed). -/
theorem withdrawal_status_reachable (db₀ : List PublisherEarnings)
    (ops : List WithdrawalOp)
    (h : ∀ e ∈ db₀, e.withdrawal_status = .PENDING) :
    ∀ e ∈ applyWithdrawalOps db₀ ops,
      (e.withdrawal_status = .PENDING ∨
       e.withdrawal_status = .WITHDRAWAL_REQUESTED ∨
       e.withdrawal_status = .WITHDRAWAL_COMPLETED ∨
       e.withdrawal_status = .WITHDRAWAL_REJECTED) ∧
      e.withdrawal_status ≠ .WITHDRAWAL_APPROVED := by
  intro e he
  have hne : e.withdrawal_status ≠ .WITHDRAWAL_APPROVED := by
    refine no_approved_invariant ops db₀ ?_ e he
    intro x hx
    rw [h x hx]
    simp
  refine ⟨?_, hne⟩
  cases hst : e.withdrawal_status with
  | PENDING => exact Or.inl rfl
  | WITHDRAWAL_REQUESTED => exact Or.inr (Or.inl rfl)
  | WITHDRAWAL_APPROVED => exact absurd hst hne
  | WITHDRAWAL_COMPLETED => exact Or.inr (Or.inr (Or.inl rfl))
  | WITHDRAWAL_REJECTED => exact Or.inr (Or.inr (Or.inr rfl))

/-- C9 witness: the reachability theorem applied to a concrete singleton
table of one pending bucket and a concrete operation sequence. -/
theorem withdrawal_status_reachable_witness :
    (eW.withdrawal_status = .PENDING ∨
     eW.withdrawal_status = .WITHDRAWAL_REQUESTED ∨
     eW.withdrawal_status = .WITHDRAWAL_COMPLETED ∨
     eW.withdrawal_status = .WITHDRAWAL_REJECTED) ∧
    eW.withdrawal_status ≠ .WITHDRAWAL_APPROVED :=
  withdrawal_status_reachable [eW] []
    (fun e he => by rw [List.mem_singleton.mp he]; rfl) eW
    (List.mem_singleton.mpr rfl)

/-! ## C5: the earnings month bucket -/

/-- First event instant of the C5 scenario: 2024-05-20 14:00:00 UTC. -/
def dtA : PyDateTime := ⟨2024, 5, 20, 14, 0, 0, 0⟩

/-- Second event instant of the C5 scenario: 2024-05-21 09:30:00 UTC —
the same publisher and the same calendar month, a different time of day. -/
def dtB : PyDateTime := ⟨2024, 5, 21, 9, 30, 0, 0⟩

/-- C5: contrary to the claim, monthly earnings are not kept in one row
per (publisher, calendar month).  The bucket key is
`month.replace(day=1)` on the full `datetime.now(UTC)` value, which keeps
the time of day, so the equality lookup of `get_monthly_earnings` misses
any earlier same-month row written at a different time of day and
`create_or_update_earnings` appends a fresh row: two accepted events of
the same publisher in May 2024 leave two rows, each carrying only its own
event's counts (both keys have day 1 but different times).  Only when the
two datetimes coincide exactly — the last conjunct — does the second
event increment the first row as the claim describes for every
same-month event. -/
theorem earnings_bucket_split_by_time :
    (PublisherEarnings.create_or_update_earnings
        (PublisherEarnings.create_or_update_earnings [] "pub" dtA
          1 0 0 2 1 1 "b1" 100)
        "pub" dtB 1 0 0 2 1 1 "b2" 200).length = 2 ∧
    (PublisherEarnings.create_or_update_earnings
        (PublisherEarnings.create_or_update_earnings [] "pub" dtA
          1 0 0 2 1 1 "b1" 100)
        "pub" dtB 1 0 0 2 1 1 "b2" 200).map (fun e => e.publisher_id) =
      ["pub", "pub"] ∧
    (PublisherEarnings.create_or_update_earnings
        (PublisherEarnings.create_or_update_earnings [] "pub" dtA
          1 0 0 2 1 1 "b1" 100)
        "pub" dtB 1 0 0 2 1 1 "b2" 200).map (fun e => e.month) =
      [⟨2024, 5, 1, 14, 0, 0, 0⟩, ⟨2024, 5, 1, 9, 30, 0, 0⟩] ∧
    (PublisherEarnings.create_or_update_earnings
        (PublisherEarnings.create_or_update_earnings [] "pub" dtA
          1 0 0 2 1 1 "b1" 100)
        "pub" dtB 1 0 0 2 1 1 "b2" 200).map (fun e => e.total_views) =
      [1, 1] ∧
    (PublisherEarnings.create_or_update_earnings
        (PublisherEarnings.create_or_update_earnings [] "pub" dtA
          1 0 0 2 1 1 "b1" 100)
        "pub" dtA 1 0 0 2 1 1 "b2" 200).map (fun e => e.total_views) =
      [2] := by
  refine ⟨rfl, rfl, rfl, rfl, rfl⟩

/-! ## C8: session init / validate round trip -/

/-- C8: for fingerprint inputs that `init` accepts (IP, user agent and
publisher present, user agent not classified as bot or email client) and a
token not already stored (tokens embed the issue instant, so re-issue
collisions cannot occur), `init` immediately followed by `validate` with
the identical (ip, user agent, publisher) triple returns exactly the
session row `init` created, while the same `validate` with any mismatched
IP fails with the 401 invalid-session error. -/
theorem init_validate_roundtrip (db : List CampaignTrackingSession)
    (publisher_id ip ua : String) (res lang hdr : Option String)
    (is_bot is_email_client : String → Bool) (now : Int) (newId : String)
    (hip : ip ≠ "") (hua : ua ≠ "") (hpub : publisher_id ≠ "")
    (hbot : is_bot ua = false) (hmail : is_email_client ua = false)
    (hfresh : ∀ s ∈ db,
      s.jwt_token ≠ ⟨ip, ua, res, lang, publisher_id, now + 3600⟩) :
    ∃ s db', init_tracking_session db publisher_id (some ip) (some ua) res
        lang hdr is_bot is_email_client now newId = .ok (s, db') ∧
      s.viewer_ip = ip ∧ s.viewer_user_agent = ua ∧
      s.publisher_id = publisher_id ∧
      get_tracking_session db' (some s.jwt_token) ip ua publisher_id now =
        .ok s ∧
      (∀ ip2, ip2 ≠ ip →
        get_tracking_session db' (some s.jwt_token) ip2 ua publisher_id
          now = .error ⟨401, "Invalid or expired tracking session"⟩) := by
  have hipF : (ip == "") = false := beq_eq_false_iff_ne.mpr hip
  have huaF : (ua == "") = false := beq_eq_false_iff_ne.mpr hua
  have hpubF : (publisher_id == "") = false := beq_eq_false_iff_ne.mpr hpub
  refine ⟨⟨newId, ⟨ip, ua, res, lang, publisher_id, now + 3600⟩, ip, ua,
    res, lang, now, now + 3600 + 60, false, none, publisher_id⟩,
    db ++ [⟨newId, ⟨ip, ua, res, lang, publisher_id, now + 3600⟩, ip, ua,
      res, lang, now, now + 3600 + 60, false, none, publisher_id⟩],
    ?_, rfl, rfl, rfl, ?_, ?_⟩
  · rw [init_tracking_session]
    simp only [pyFalsy, pyOr, hipF, huaF, hpubF, hbot, hmail,
      Bool.false_eq_true, if_false, Bool.or_self,
      CampaignTrackingSession.create_session, Option.getD_some]
  · have hfilterdb : db.filter (CampaignTrackingSession.validFilter
        ⟨ip, ua, res, lang, publisher_id, now + 3600⟩ ip ua publisher_id
        now) = [] := by
      rw [List.filter_eq_nil_iff]
      intro x hx
      have hne := hfresh x hx
      simp [CampaignTrackingSession.validFilter, hne]
    have hexp : ¬((now : Int) + 3600 ≤ now) := by omega
    simp only [get_tracking_session, decode_tracking_jwt, if_neg hexp,
      CampaignTrackingSession.get_valid_session, List.filter_append,
      hfilterdb, List.nil_append]
    have hvf : CampaignTrackingSession.validFilter
        ⟨ip, ua, res, lang, publisher_id, now + 3600⟩ ip ua publisher_id
        now ⟨newId, ⟨ip, ua, res, lang, publisher_id, now + 3600⟩, ip, ua,
          res, lang, now, now + 3600 + 60, false, none, publisher_id⟩ =
        true := by
      simp [CampaignTrackingSession.validFilter]
      omega
    rw [List.filter_cons_of_pos hvf]
    rfl
  · intro ip2 hip2
    have hfilterdb : db.filter (CampaignTrackingSession.validFilter
        ⟨ip, ua, res, lang, publisher_id, now + 3600⟩ ip2 ua publisher_id
        now) = [] := by
      rw [List.filter_eq_nil_iff]
      intro x hx
      have hne := hfresh x hx
      simp [CampaignTrackingSession.validFilter, hne]
    have hexp : ¬((now : Int) + 3600 ≤ now) := by omega
    simp only [get_tracking_session, decode_tracking_jwt, if_neg hexp,
      CampaignTrackingSession.get_valid_session, List.filter_append,
      hfilterdb, List.nil_append]
    have hvf : CampaignTrackingSession.validFilter
        ⟨ip, ua, res, lang, publisher_id, now + 3600⟩ ip2 ua publisher_id
        now ⟨newId, ⟨ip, ua, res, lang, publisher_id, now + 3600⟩, ip, ua,
          res, lang, now, now + 3600 + 60, false, none, publisher_id⟩ =
        false := by
      simp [CampaignTrackingSession.validFilter]
      intro h1
      exact absurd h1.symm hip2
    rw [List.filter_cons_of_neg (by simp [hvf])]
    rfl

/-- C8 witness: the round trip on a concrete empty table and fingerprint,
with the freshness and acceptance hypotheses discharged. -/
theorem init_validate_roundtrip_witness :
    ∃ s db', init_tracking_session [] "pub1" (some "1.2.3.4")
        (some "Mozilla/5.0") (some "1920x1080") (some "en-US") none
        (fun _ => false) (fun _ => false) 0 "sid" = .ok (s, db') ∧
      s.viewer_ip = "1.2.3.4" ∧ s.viewer_user_agent = "Mozilla/5.0" ∧
      s.publisher_id = "pub1" ∧
      get_tracking_session db' (some s.jwt_token) "1.2.3.4" "Mozilla/5.0"
        "pub1" 0 = .ok s ∧
      (∀ ip2, ip2 ≠ "1.2.3.4" →
        get_tracking_session db' (some s.jwt_token) ip2 "Mozilla/5.0"
          "pub1" 0 =
          .error ⟨401, "Invalid or expired tracking session"⟩) :=
  init_validate_roundtrip [] "pub1" "1.2.3.4" "Mozilla/5.0"
    (some "1920x1080") (some "en-US") none (fun _ => false)
    (fun _ => false) 0 "sid" (by decide) (by decide) (by decide) rfl rfl
    (fun s hs => absurd hs (List.not_mem_nil s))

/-! ## C1 and C2: the ingestion pipeline at its failure points -/

/-- Pricing configuration of the C1/C2 scenario: the `"other"` region
prices a view at 0.05 USD, matching the specification's budget-exceeded
scenario. -/
def cfg1 : PricingConfig :=
  ⟨[("other", ⟨"Other regions", [], [("view", 1/20)], "USD"⟩)],
   "USD", 50, "monthly", [], "1.0.0"⟩

/-- Campaign of the scenario: budget_total 10.00 USD, budget_used 9.99
USD, ACTIVE. -/
def c1def : Campaign := ⟨"camp1", .ACTIVE, 10, 999/100, "USD", "ad1"⟩

/-- Validated tracking session of the scenario. -/
def sess1 : CampaignTrackingSession :=
  ⟨"sess1", ⟨"1.2.3.4", "UA", none, none, "pub1", 3600⟩, "1.2.3.4", "UA",
   some "1920x1080", some "en-US", 0, 3660, false, none, "pub1"⟩

/-- Geolocation result for the session's pinned IP. -/
def ip1 : IPInformation := ⟨"1.2.3.4", "ZZ", 0, 0, "UTC", false, "Unknown"⟩

/-- Request context of the scenario: a view event at instant 3600. -/
def ctx1 : TrackRequestCtx :=
  ⟨"camp1", "pub1", "view", sess1, ip1, "Apple", "mobile", "iOS", "Safari",
   3600, ⟨2024, 5, 20, 0, 0, 0, 0⟩, "ev1", "earn1"⟩

/-- Initial database of the C1 scenario: no prior events. -/
def st1 : TrackState := ⟨[], [c1def], ["pub1"], [], [], []⟩

/-- The tracking event the pipeline builds and commits for the scenario
(its earnings are the view rate times the defaulted device multiplier). -/
def ev1E : TrackingEvent :=
  ⟨"ev1", "ad1", "camp1", "view", 1/20 * 1, 1/20 * 1 * (7/20),
   1/20 * 1 * (13/20), "1.2.3.4", "ZZ", "Apple", "mobile", "iOS", "Safari",
   some "en-US", "UA", "sess1", some "1920x1080", "UTC", 3600, "pub1"⟩

/-- C1: the specification's budget-exceeded scenario (budget_total 10.00,
budget_used 9.99, event priced 0.05) refutes the all-or-nothing claim on
the code: the debit does fail with the budget-exceeded `ModelError` and
`budget_used` stays 9.99, but the `TrackingEvent` row is already committed
by `create_event` on the plain (immediately committing) session before the
debit runs, so it remains persisted while the caller receives the generic
500 ingestion failure — the pipeline's writes do not commit together. -/
theorem track_budget_exceeded_not_atomic :
    (track_campaign cfg1 (7/20) (13/20) ctx1 st1).1 =
      .error ⟨500, "Error processing tracking event"⟩ ∧
    (track_campaign_inner cfg1 (7/20) (13/20) ctx1 st1).1 =
      .error (.modelError ⟨"Budget would be exceeded. Available: ", 400⟩) ∧
    (track_campaign cfg1 (7/20) (13/20) ctx1 st1).2.events = [ev1E] ∧
    (track_campaign cfg1 (7/20) (13/20) ctx1 st1).2.campaigns = [c1def] ∧
    c1def.campaign_budget_used = 999/100 ∧
    c1def.campaign_budget = 10 ∧
    ev1E.earnings = 1/20 ∧
    (track_campaign cfg1 (7/20) (13/20) ctx1 st1).2.earnings = [] := by
  have hdup : TrackingEvent.check_duplicate_event st1.events
      ctx1.campaign_id ctx1.tracking_session.viewer_ip ctx1.event_type
      (ctx1.now - 60 * 60) = false := rfl
  have hpub : st1.publishers.contains ctx1.publisher_id = true := rfl
  have hfind : st1.campaigns.find? (fun c => c.id == ctx1.campaign_id) =
      some c1def := rfl
  have hact : c1def.campaign_status = CampaignStatus.ACTIVE := rfl
  have hcreate : TrackingEvent.create_event st1.events cfg1 (7/20) (13/20)
      c1def.advertisement_id ctx1.campaign_id ctx1.event_type ctx1.ip_info
      ctx1.device ctx1.device_type ctx1.os ctx1.browser
      ctx1.tracking_session.viewer_language ctx1.tracking_session.id
      ctx1.tracking_session.viewer_user_agent ctx1.publisher_id
      ctx1.tracking_session.viewer_screen_resolution ctx1.now
      ctx1.newEventId = .ok (ev1E, [ev1E]) := rfl
  have hdebit : Campaign.increase_budget_used c1def ev1E.earnings =
      .error ⟨"Budget would be exceeded. Available: ", 400⟩ := by
    show Campaign.increase_budget_used c1def (1/20 * 1) = _
    rw [Campaign.increase_budget_used]
    norm_num [c1def]
  have hinner : track_campaign_inner cfg1 (7/20) (13/20) ctx1 st1 =
      (.error (.modelError ⟨"Budget would be exceeded. Available: ", 400⟩),
       { st1 with events := [ev1E] }) := by
    rw [track_campaign_inner]
    simp only [hdup, Bool.false_eq_true, if_false, hpub, Bool.true_eq_false,
      hfind, hact, ne_eq, not_true_eq_false, hcreate, hdebit]
  have htrack : track_campaign cfg1 (7/20) (13/20) ctx1 st1 =
      (.error ⟨500, "Error processing tracking event"⟩,
       { st1 with events := [ev1E],
                  logs := st1.logs ++ [⟨.ERROR, "Error tracking campaign"⟩] }) := by
    rw [track_campaign, hinner]
  refine ⟨?_, ?_, ?_, ?_, rfl, rfl, ?_, ?_⟩
  · rw [htrack]
  · rw [hinner]
  · rw [htrack]
  · rw [htrack]
    rfl
  · show (1 : ℚ)/20 * 1 = 1/20
    norm_num
  · rw [htrack]
    rfl

/-- Pre-existing event of the C2 scenario: same (campaign, viewer IP,
event type) at instant 3500, inside the 60-minute window before 3600. -/
def dup1E : TrackingEvent :=
  ⟨"old1", "ad1", "camp1", "view", 0, 0, 0, "1.2.3.4", "ZZ", "Apple",
   "mobile", "iOS", "Safari", some "en-US", "UA", "sess1",
   some "1920x1080", "UTC", 3500, "pub1"⟩

/-- Initial database of the C2 scenario: the duplicate event persisted. -/
def st2 : TrackState := ⟨[dup1E], [c1def], ["pub1"], [], [], []⟩

/-- C2: on a duplicate within the cooldown window the pipeline does raise
the 429 rate-limit `HTTPException` and persists no new `TrackingEvent` —
but the endpoint's blanket `except Exception` handler catches that very
exception and re-raises the generic 500 ingestion failure, so the caller
receives HTTP 500, not 429. -/
theorem track_duplicate_surfaced_as_500 :
    (track_campaign_inner cfg1 (7/20) (13/20) ctx1 st2).1 =
      .error (.http ⟨429,
        "Duplicate event detected. Please wait 60 minutes between events."⟩) ∧
    (track_campaign cfg1 (7/20) (13/20) ctx1 st2).1 =
      .error ⟨500, "Error processing tracking event"⟩ ∧
    (track_campaign cfg1 (7/20) (13/20) ctx1 st2).2.events = st2.events ∧
    (track_campaign cfg1 (7/20) (13/20) ctx1 st2).2.campaigns =
      st2.campaigns ∧
    (track_campaign cfg1 (7/20) (13/20) ctx1 st2).2.earnings =
      st2.earnings := by
  have hdup : TrackingEvent.check_duplicate_event st2.events
      ctx1.campaign_id ctx1.tracking_session.viewer_ip ctx1.event_type
      (ctx1.now - 60 * 60) = true := rfl
  have hinner : track_campaign_inner cfg1 (7/20) (13/20) ctx1 st2 =
      (.error (.http ⟨429,
        "Duplicate event detected. Please wait 60 minutes between events."⟩),
       st2) := by
    rw [track_campaign_inner]
    simp only [hdup, if_true]
  have htrack : track_campaign cfg1 (7/20) (13/20) ctx1 st2 =
      (.error ⟨500, "Error processing tracking event"⟩,
       { st2 with
         logs := st2.logs ++ [⟨.ERROR, "Error tracking campaign"⟩] }) := by
    rw [track_campaign, hinner]
  refine ⟨?_, ?_, ?_, ?_, ?_⟩
  · rw [hinner]
  · rw [htrack]
  · rw [htrack]
  · rw [htrack]
  · rw [htrack]

/-- C10 witness: the rounding theorem applied to a concrete successful
debit of 0.004 on a fresh campaign. -/
theorem budget_used_rounded_on_write_witness :
    (∃ k : ℤ, (0 : ℚ) = (k : ℚ) / 100) ∧
    (0 : ℚ) = round2 ((0 : ℚ) + 1/250) ∧
    ((∃ j : ℤ, (0 : ℚ) = (j : ℚ) / 100) →
      (∀ m : ℤ, (1 : ℚ)/250 ≠ (m : ℚ) / 100) →
      (0 : ℚ) ≠ (0 : ℚ) + 1/250) ∧
    (Campaign.increase_budget_used ⟨"d", .ACTIVE, 10, 0, "USD", "a"⟩
        (1/250) = .ok ⟨"d", .ACTIVE, 10, 0, "USD", "a"⟩ ∧
      (0 : ℚ) ≠ 1/250 + 1/250) :=
  budget_used_rounded_on_write ⟨"d", .ACTIVE, 10, 0, "USD", "a"⟩ (1/250)
    ⟨"d", .ACTIVE, 10, 0, "USD", "a"⟩ (by
      rw [increase_budget_used_ok_iff]
      refine ⟨by norm_num, by norm_num, ?_⟩
      have h : round2 ((0 : ℚ) + 1/250) = 0 := by
        rw [round2, round_eq]
        norm_num
      rw [h])
